import Mathlib

/-!
Shallow embedding of the `namelessrealms_core` launch-parameter assembler:
`src/minecraft/libraries.rs` (platform-rule evaluation and library resolution)
and `src/parameters.rs` (JVM / game argument assembly).  Host-platform
detection (`utils::get_os_type`, `get_os_arch`, `get_os_version`) is passed
explicitly as a `Host` value; path values are modelled as strings.
-/

/-- `utils::OSType`: the host operating-system kind. -/
inductive OSType
  | Windows
  | MacOS
  | Linux
deriving DecidableEq, Repr

/-- `utils::OSArch`: the host architecture. -/
inductive OSArch
  | X86
  | X86_64
  | Aarch64
deriving DecidableEq, Repr

/-- Host-platform information, the result of the `utils` detection functions
(`get_os_type`, `get_os_arch`, `get_os_version`), detected once per process. -/
structure Host where
  os : OSType
  arch : OSArch
  version : String
deriving Repr

/-- The `os` field of `version_metadata::LibrariesRules`: optional OS-name
and OS-arch constraints. -/
structure LibrariesRulesOS where
  name : Option String
  arch : Option String
deriving Repr

/-- `version_metadata::LibrariesRules`: an action string (`"allow"` /
`"disallow"`) and an optional OS constraint block. -/
structure LibrariesRules where
  action : String
  os : Option LibrariesRulesOS
deriving Repr

/-- The `os_type` closure in `is_rules`: host OS rendered as the metadata
rule-name string. -/
def os_type_name : OSType → String
  | .Windows => "windows"
  | .MacOS => "osx"
  | .Linux => "linux"

/-- The `os_arch` closure in `is_rules`: host arch rendered as the metadata
rule-arch string. -/
def os_arch_name : OSArch → String
  | .X86 => "x86"
  | .X86_64 => "x64"
  | .Aarch64 => "arm"

/-- `libraries::is_rules`: scan rules in document order; an `allow` rule with
an OS-name constraint returns host-OS equality at once, an `allow` rule with
only an arch constraint returns host-arch equality at once, a `disallow` rule
with an OS-name constraint returns host-OS inequality at once; any other rule
is skipped, and the default is `true`. -/
def is_rules (host : Host) : List LibrariesRules → Bool
  | [] => true
  | rule :: rest =>
    if rule.action == "allow" then
      match rule.os with
      | some os =>
        match os.name with
        | some os_name => os_type_name host.os == os_name
        | none =>
          match os.arch with
          | some os_arch_name2 => os_arch_name host.arch == os_arch_name2
          | none => is_rules host rest
      | none => is_rules host rest
    else if rule.action == "disallow" then
      match rule.os with
      | some os =>
        match os.name with
        | some os_name => os_type_name host.os != os_name
        | none => is_rules host rest
      | none => is_rules host rest
    else
      is_rules host rest

/-- `version_metadata::LibrariesFile`: one downloadable file entry
(path, sha1, size, url). -/
structure LibrariesFile where
  path : String
  sha1 : String
  size : Nat
  url : String
deriving DecidableEq, Repr

/-- The per-OS classifier map of a descriptor's `downloads` block. -/
structure Classifiers where
  natives_windows : Option LibrariesFile
  natives_osx : Option LibrariesFile
  natives_macos : Option LibrariesFile
  natives_linux : Option LibrariesFile
deriving DecidableEq, Repr

/-- The `downloads` block of a library descriptor: an optional unified
artifact entry and an optional per-OS classifier map. -/
structure Downloads where
  artifact : Option LibrariesFile
  classifiers : Option Classifiers
deriving Repr

/-- `version_metadata::Libraries`: one library descriptor — logical name,
optional rule list, downloads block. -/
structure Libraries where
  name : String
  rules : Option (List LibrariesRules)
  downloads : Downloads
deriving Repr

/-- `libraries::LibrariesJarType`. -/
inductive LibrariesJarType
  | Artifact
  | Natives
deriving DecidableEq, Repr

/-- `libraries::LibrariesJar`: one resolved library artifact. -/
structure LibrariesJar where
  type : LibrariesJarType
  name : String
  relative_path : String
  path : String
  sha1 : String
  size : Nat
  download_url : String
deriving DecidableEq, Repr

/-- Modelled from the spec: `global_path::get_common_dir_path`, the shared
common-root path helper (its source is outside the embedded files). -/
def get_common_dir_path : String := ".minecraft"

/-- Modelled from the spec: `global_path::get_instances_dir_path`, the
instances-root path helper (its source is outside the embedded files). -/
def get_instances_dir_path : String := "instances"

/-- `PathBuf::join`, modelled on strings. -/
def path_join (a b : String) : String := a ++ "/" ++ b

/-- Modelled from the spec: `global_path::combine_common_paths_absolute`
(its source is outside the embedded files) — absolute path = artifacts root
joined with the relative path. -/
def combine_common_paths_absolute (sub rel : String) : String :=
  path_join (path_join get_common_dir_path sub) rel

/-- Character-list version of "does `s` start with `p`". -/
def starts_with_chars : List Char → List Char → Bool
  | [], _ => true
  | _ :: _, [] => false
  | p :: ps, c :: cs => p == c && starts_with_chars ps cs

/-- Character-list substring test: the needle occurs at some position of the
haystack. -/
def contains_sub (hay needle : List Char) : Bool :=
  starts_with_chars needle hay ||
    (match hay with
     | [] => false
     | _ :: rest => contains_sub rest needle)

/-- Rust `str::contains`: substring occurrence test. -/
def string_contains (s pat : String) : Bool :=
  contains_sub s.data pat.data

/-- Character-list version of splitting on a single separator character;
always yields at least one piece. -/
def split_on_char (sep : Char) : List Char → List (List Char)
  | [] => [[]]
  | c :: cs =>
    if c == sep then [] :: split_on_char sep cs
    else
      match split_on_char sep cs with
      | [] => [[c]]
      | p :: ps => (c :: p) :: ps

/-- `file.path.split("/").collect::<Vec<..>>().last().unwrap()`:
the last `/`-separated segment of a path (the `unwrap` is safe because
`split` always yields at least one piece; `getLastD` mirrors that totality). -/
def last_path_segment (p : String) : String :=
  String.mk ((split_on_char '/' p.data).getLastD [])

/-- The classifier-map selection in `add_allow_libs`: `natives_windows` on
Windows, `natives_linux` on Linux, and on MacOS `natives_osx` first with
`natives_macos` as the fallback. -/
def select_native_file (host_os : OSType) (c : Classifiers) : Option LibrariesFile :=
  match host_os with
  | .Windows => c.natives_windows
  | .MacOS =>
    if c.natives_osx.isSome then c.natives_osx
    else if c.natives_macos.isSome then c.natives_macos
    else none
  | .Linux => c.natives_linux

/-- `libraries::add_allow_libs`: the entries pushed for one descriptor —
the unified-artifact entry (reclassified to `Natives` when the logical name
contains `"natives"`) followed by the classifier-map native entry when one
matches the host OS. -/
def add_allow_libs (host_os : OSType) (item : Libraries) : List LibrariesJar :=
  let artifact_part : List LibrariesJar :=
    match item.downloads.artifact with
    | some file =>
      let t : LibrariesJarType :=
        if string_contains item.name "natives" then LibrariesJarType.Natives
        else LibrariesJarType.Artifact
      [{ type := t
         name := last_path_segment file.path
         relative_path := file.path
         path := combine_common_paths_absolute "libraries" file.path
         sha1 := file.sha1
         size := file.size
         download_url := file.url }]
    | none => []
  let natives_part : List LibrariesJar :=
    match item.downloads.classifiers with
    | some classifiers =>
      match select_native_file host_os classifiers with
      | some native_file =>
        [{ type := LibrariesJarType.Natives
           name := last_path_segment native_file.path
           relative_path := native_file.path
           path := combine_common_paths_absolute "libraries" native_file.path
           sha1 := native_file.sha1
           size := native_file.size
           download_url := native_file.url }]
      | none => []
    | none => []
  artifact_part ++ natives_part

/-- `libraries::is_libraries`: resolve every descriptor in input order,
skipping a descriptor whose rule list evaluates to `false`. -/
def is_libraries (host : Host) : List Libraries → List LibrariesJar
  | [] => []
  | lib :: rest =>
    let keep : Bool :=
      match lib.rules with
      | some rules => is_rules host rules
      | none => true
    (if keep then add_allow_libs host.os lib else []) ++ is_libraries host rest

/-- The (flag-name, placeholder-key) pair of a templated argument in the
version metadata's `game` / `jvm` blocks. -/
structure Argument where
  name : String
  key : String
deriving Repr

/-- The modern JVM-argument block: verbatim required flags plus templated
argument pairs. -/
structure JvmBlock where
  required : List String
  arguments : List Argument
deriving Repr

/-- The game-argument block: templated argument pairs. -/
structure GameBlock where
  arguments : List Argument
deriving Repr

/-- `version_metadata::VersionMetadata`, restricted to the accessors the
embedded code uses: `get_id`, `get_assets_index_id`, `get_main_class_name`,
`get_java_parameters().get_game() / get_jvm()`, `get_libraries`,
`get_client_jar().path`. -/
structure VersionMetadata where
  id : String
  assets_index_id : String
  main_class_name : String
  game : GameBlock
  jvm : JvmBlock
  libraries : List LibrariesJar
  client_jar_path : String
deriving Repr

/-- `parameters::BuildParameters`: the metadata reference plus the natives
directory path allocated at construction time. -/
structure BuildParameters where
  version_metadata : VersionMetadata
  natives_dir_path : String
deriving Repr

/-- `parameters::JavaStartParameters`. -/
structure JavaStartParameters where
  natives_dir_path : String
  parameters : List String
deriving Repr

/-- Decimal digit run to a natural number; `none` when empty or any
character is not a digit. -/
def decimal_digits_to_nat (cs : List Char) : Option Nat :=
  if cs != [] && cs.all Char.isDigit then
    some (cs.foldl (fun n c => n * 10 + (c.toNat - 48)) 0)
  else none

/-- Modelled from the spec: `utils::is_mc_version` (the `utils` module is not
among the embedded source files).  Dotted-numeric parse of a version
identifier; a non-numeric component counts as 0. -/
def parse_version (s : String) : List Nat :=
  (split_on_char '.' s.data).map (fun p => (decimal_digits_to_nat p).getD 0)

/-- All components zero. -/
def all_zero : List Nat → Bool
  | [] => true
  | b :: bs => (b == 0) && all_zero bs

/-- Modelled from the spec: strict dotted-numeric (semantic) version order on
parsed component lists; a missing component counts as 0. -/
def ver_lt : List Nat → List Nat → Bool
  | [], bs => !(all_zero bs)
  | a :: as2, [] => (a == 0) && ver_lt as2 []
  | a :: as2, b :: bs => decide (a < b) || ((a == b) && ver_lt as2 bs)

/-- Modelled from the spec: `utils::is_mc_version threshold v` holds when `v`
is semantically (dotted-numeric, not lexical) at or above `threshold`. -/
def is_mc_version (threshold version : String) : Bool :=
  !(ver_lt (parse_version version) (parse_version threshold))

/-- `BuildParameters::minecraft_version`. -/
def minecraft_version (bp : BuildParameters) : String :=
  bp.version_metadata.id

/-- `BuildParameters::assemble_library_path`: collect every resolved library
path, append the client-jar path, join with `;` on Windows and `:`
elsewhere. -/
def assemble_library_path (host_os : OSType) (bp : BuildParameters) : String :=
  let libraries : List String :=
    bp.version_metadata.libraries.foldl (fun acc lib => acc ++ [lib.path]) []
  let libraries := libraries ++ [bp.version_metadata.client_jar_path]
  if host_os == OSType.Windows then
    String.intercalate ";" libraries
  else
    String.intercalate ":" libraries

/-- The `add_os_info` closure in `get_jvm_arguments_for_112_and_later`:
OS-identification system properties — both on Windows and Linux, neither on
MacOS (the Darwin line is commented out in the source). -/
def add_os_info (host : Host) : List String :=
  match host.os with
  | .Windows => ["-Dos.name=Windows " ++ host.version, "-Dos.version=" ++ host.version]
  | .MacOS => []
  | .Linux => ["-Dos.name=Linux", "-Dos.version=" ++ host.version]

/-- `BuildParameters::get_jvm_arguments_for_112_and_later`: the legacy
(below-1.13) JVM argument sequence. -/
def get_jvm_arguments_for_112_and_later (host : Host) (bp : BuildParameters) : List String :=
  ["-XX:HeapDumpPath=MojangTricksIntelDriversForPerformance_javaw.exe_minecraft.exe.heapdump"]
  ++ (if host.arch == OSArch.X86 then ["-Xss1M"] else [])
  ++ add_os_info host
  ++ ["-Dminecraft.launcher.brand=mckismetlab-launcher",
      "-Dminecraft.launcher.version=0.0.1",
      "-Djava.library.path=" ++ bp.natives_dir_path,
      "-cp",
      assemble_library_path host.os bp]

/-- The per-key value lookup inside `BuildParameters::minecraft_arguments`:
`some` for a recognized placeholder key, `none` for the `continue` arm. -/
def game_arg_value (bp : BuildParameters) (key : String) : Option String :=
  let game_instances_dir_path := path_join get_instances_dir_path "mckismetlab-main-server"
  let assets_common_dir_path := path_join get_common_dir_path "assets"
  if key == "${auth_player_name}" then some "Yu_Cheng"
  else if key == "${version_name}" then some (minecraft_version bp)
  else if key == "${game_directory}" then some game_instances_dir_path
  else if key == "${assets_root}" then some assets_common_dir_path
  else if key == "${assets_index_name}" then some bp.version_metadata.assets_index_id
  else if key == "${auth_uuid}" then some "93ea0589-ec75-4cad-8619-995164382e8d"
  else if key == "${auth_access_token}" then some "null_token"
  else if key == "${user_type}" then some "mojang"
  else if key == "${version_type}" then some "release"
  else if key == "${user_properties}" then some "\x7b\x7d"
  else none

/-- The loop body of `BuildParameters::minecraft_arguments` over an explicit
pair list: a recognized pair pushes flag name then value, an unrecognized
pair pushes nothing. -/
def minecraft_arguments_of (bp : BuildParameters) (games : List Argument) : List String :=
  games.foldl
    (fun acc g =>
      match game_arg_value bp g.key with
      | some val => acc ++ [g.name, val]
      | none => acc)
    []

/-- `BuildParameters::minecraft_arguments`: the game-argument token pass over
the metadata's game block. -/
def minecraft_arguments (bp : BuildParameters) : List String :=
  minecraft_arguments_of bp bp.version_metadata.game.arguments

/-- The body of `BuildParameters::jvm_parameters` over explicit memory
limits: `-Xmx` / `-Xms` tokens with the zero-value fallbacks of the
source's `if` branches. -/
def jvm_parameters_of (ram_size_max ram_size_min : Nat) : List String :=
  (if ram_size_max != 0 then ["-Xmx" ++ toString ram_size_max ++ "M"]
   else ["-Xmx2048M"])
  ++ (if ram_size_min != 0 then ["-Xms" ++ toString ram_size_min ++ "M"]
      else ["-Xms1024M"])

/-- `BuildParameters::jvm_parameters`: the source binds
`ram_size_max = 4096` and `ram_size_min = 1024`. -/
def jvm_parameters : List String :=
  jvm_parameters_of 4096 1024

/-- `BuildParameters::get_jvm_arguments_for_113_and_above`: required flags
verbatim, then the templated JVM pairs — `${classpath}` expands to `-cp`
plus the assembled classpath, the three recognized keys expand to one
`name=value` token, anything else is dropped. -/
def get_jvm_arguments_for_113_and_above (host : Host) (bp : BuildParameters) : List String :=
  bp.version_metadata.jvm.required
  ++ bp.version_metadata.jvm.arguments.foldl
      (fun acc jvm =>
        if jvm.key == "${classpath}" then
          acc ++ ["-cp", assemble_library_path host.os bp]
        else if jvm.key == "${natives_directory}" then
          acc ++ [jvm.name ++ "=" ++ bp.natives_dir_path]
        else if jvm.key == "${launcher_name}" then
          acc ++ [jvm.name ++ "=" ++ "mcKismetLab"]
        else if jvm.key == "${launcher_version}" then
          acc ++ [jvm.name ++ "=" ++ "v0.5.0"]
        else acc)
      []

/-- `BuildParameters::build_113above`: the modern token sequence. -/
def build_113above (host : Host) (bp : BuildParameters) : List String :=
  get_jvm_arguments_for_113_and_above host bp
  ++ jvm_parameters
  ++ [bp.version_metadata.main_class_name]
  ++ minecraft_arguments bp

/-- `BuildParameters::build_112later`: the legacy token sequence. -/
def build_112later (host : Host) (bp : BuildParameters) : List String :=
  get_jvm_arguments_for_112_and_later host bp
  ++ jvm_parameters
  ++ [bp.version_metadata.main_class_name]
  ++ minecraft_arguments bp

/-- `BuildParameters::get_java_start_parameters`: select the modern schema
when `is_mc_version "1.13" id` holds, the legacy schema otherwise. -/
def get_java_start_parameters (host : Host) (bp : BuildParameters) : JavaStartParameters :=
  let parameters :=
    if is_mc_version "1.13" (minecraft_version bp) then build_113above host bp
    else build_112later host bp
  { natives_dir_path := bp.natives_dir_path, parameters := parameters }

/-! ### Helper lemmas -/

theorem foldl_push_path (l : List LibrariesJar) (acc : List String) :
    List.foldl (fun acc2 lib => acc2 ++ [lib.path]) acc l
      = acc ++ l.map (fun lib => lib.path) := by
  induction l generalizing acc with
  | nil => simp
  | cons x xs ih => simp [List.foldl_cons, ih]

/-- A rule is decisive in `is_rules` exactly when it carries a recognized
condition: `allow` with an OS block holding a name or an arch, or
`disallow` with an OS block holding a name. -/
def rule_decides (r : LibrariesRules) : Bool :=
  if r.action == "allow" then
    match r.os with
    | some os => os.name.isSome || os.arch.isSome
    | none => false
  else if r.action == "disallow" then
    match r.os with
    | some os => os.name.isSome
    | none => false
  else false

theorem is_rules_skip (host : Host) (r : LibrariesRules) (rest : List LibrariesRules)
    (h : rule_decides r = false) :
    is_rules host (r :: rest) = is_rules host rest := by
  obtain ⟨act, os⟩ := r
  simp only [rule_decides] at h
  simp only [is_rules]
  rcases os with _ | ⟨name, arch⟩
  · by_cases ha : act == "allow" <;> by_cases hd : act == "disallow" <;> simp [ha, hd]
  · by_cases ha : act == "allow"
    · simp only [ha, if_true] at h
      rcases name with _ | n
      · rcases arch with _ | a
        · simp [ha]
        · simp at h
      · simp at h
    · by_cases hd : act == "disallow"
      · simp only [ha, hd, if_false, if_true] at h
        rcases name with _ | n
        · simp [ha, hd]
        · simp at h
      · simp [ha, hd]

/-! ### Claim theorems -/

/-- C1: for every target version identifier, `get_java_start_parameters`
selects the legacy argument schema exactly when the version is semantically
(dotted-numeric, not lexical) below `"1.13"` and the modern schema otherwise;
`"1.12.2"` selects legacy, `"1.13"` and `"1.16.5"` select modern, and
`"1.9"` is not treated as at or above `"1.13"`. -/
theorem c1_strategy_selection (host : Host) (bp : BuildParameters) :
    (get_java_start_parameters host bp).parameters
      = (if ver_lt (parse_version (minecraft_version bp)) (parse_version "1.13")
         then build_112later host bp
         else build_113above host bp)
    ∧ is_mc_version "1.13" "1.12.2" = false
    ∧ is_mc_version "1.13" "1.13" = true
    ∧ is_mc_version "1.13" "1.16.5" = true
    ∧ is_mc_version "1.13" "1.9" = false := by
  refine ⟨?_, by decide, by decide, by decide, by decide⟩
  unfold get_java_start_parameters is_mc_version
  cases hb : ver_lt (parse_version (minecraft_version bp)) (parse_version "1.13") <;>
    simp [hb]

/-- The classpath as the spec words it: every resolved library artifact's
absolute path in resolver emission order, client jar appended last, joined
with `;` on Windows and `:` on all other platforms. -/
def classpath_spec (host_os : OSType) (libs : List LibrariesJar)
    (client_jar_path : String) : String :=
  String.intercalate (if host_os = OSType.Windows then ";" else ":")
    (libs.map (fun lib => lib.path) ++ [client_jar_path])

/-- C2: for every resolved library list and client jar, the assembled
classpath is the join of every resolved library artifact's absolute path —
no kind filtered out — in emission order, with the client jar's path last,
separated by `;` on Windows and `:` elsewhere. -/
theorem c2_classpath_assembly (host_os : OSType) (bp : BuildParameters) :
    assemble_library_path host_os bp
      = classpath_spec host_os bp.version_metadata.libraries
          bp.version_metadata.client_jar_path := by
  unfold assemble_library_path classpath_spec
  rw [foldl_push_path]
  cases host_os <;> simp

/-- C3: rule evaluation scans rules in document order and returns at the
first rule bearing a recognized condition — `allow` with an OS name returns
host-OS equality, `allow` with only an arch returns host-arch equality,
`disallow` with an OS name returns host-OS inequality; an undecisive rule is
skipped, and when no rule ever decides the result is `true`. -/
theorem c3_rule_evaluation (host : Host) :
    (∀ (n : String) (a : Option String) (rest : List LibrariesRules),
        is_rules host (⟨"allow", some ⟨some n, a⟩⟩ :: rest)
          = (os_type_name host.os == n))
    ∧ (∀ (a : String) (rest : List LibrariesRules),
        is_rules host (⟨"allow", some ⟨none, some a⟩⟩ :: rest)
          = (os_arch_name host.arch == a))
    ∧ (∀ (n : String) (a : Option String) (rest : List LibrariesRules),
        is_rules host (⟨"disallow", some ⟨some n, a⟩⟩ :: rest)
          = (os_type_name host.os != n))
    ∧ (∀ (r : LibrariesRules) (rest : List LibrariesRules),
        rule_decides r = false → is_rules host (r :: rest) = is_rules host rest)
    ∧ (∀ (rules : List LibrariesRules),
        (∀ r ∈ rules, rule_decides r = false) → is_rules host rules = true) := by
  refine ⟨?_, ?_, ?_, ?_, ?_⟩
  · intro n a rest; rfl
  · intro a rest; rfl
  · intro n a rest; rfl
  · intro r rest h; exact is_rules_skip host r rest h
  · intro rules hall
    induction rules with
    | nil => rfl
    | cons r rest ih =>
      rw [is_rules_skip host r rest (hall r (List.mem_cons_self r rest))]
      exact ih (fun x hx => hall x (List.mem_cons_of_mem r hx))

/-- Witness for `c3_rule_evaluation`: on a Windows host, a single decisive
`allow windows` rule yields `true`, and a single undecisive rule (empty OS
block) falls through to the default `true`. -/
theorem c3_witness :
    is_rules ⟨OSType.Windows, OSArch.X86_64, "10"⟩
        [⟨"allow", some ⟨some "windows", none⟩⟩] = true
    ∧ is_rules ⟨OSType.Windows, OSArch.X86_64, "10"⟩
        [⟨"allow", some ⟨none, none⟩⟩] = true := by
  have h := c3_rule_evaluation ⟨OSType.Windows, OSArch.X86_64, "10"⟩
  constructor
  · rw [h.1 "windows" none []]; decide
  · exact h.2.2.2.2 [⟨"allow", some ⟨none, none⟩⟩] (by decide)

/-- C8: the memory-flag pass emits exactly two tokens, `-Xmx<max>M` then
`-Xms<min>M`, substituting `-Xmx2048M` when the configured max is exactly
zero and `-Xms1024M` when the configured min is exactly zero, each fallback
applying to that value only; the source instantiates the pass at
max 4096 / min 1024. -/
theorem c8_memory_flags (mx mn : Nat) :
    jvm_parameters_of mx mn
      = [if mx = 0 then "-Xmx2048M" else "-Xmx" ++ toString mx ++ "M",
         if mn = 0 then "-Xms1024M" else "-Xms" ++ toString mn ++ "M"]
    ∧ (jvm_parameters_of mx mn).length = 2
    ∧ jvm_parameters = jvm_parameters_of 4096 1024 := by
  refine ⟨?_, ?_, rfl⟩ <;>
    by_cases hmx : mx = 0 <;> by_cases hmn : mn = 0 <;>
      simp [jvm_parameters_of, hmx, hmn]

/-- C5: a game-argument pair whose placeholder key is outside the recognized
set contributes zero tokens — neither the flag name nor a value is emitted,
never an orphaned flag name. -/
theorem c5_unrecognized_pair_skipped (bp : BuildParameters) (g : Argument)
    (pre post : List Argument)
    (h : game_arg_value bp g.key = none) :
    minecraft_arguments_of bp (pre ++ g :: post)
      = minecraft_arguments_of bp (pre ++ post) := by
  unfold minecraft_arguments_of
  rw [List.foldl_append, List.foldl_append, List.foldl_cons, h]

/-- Sample metadata used by concrete witnesses. -/
def sample_metadata : VersionMetadata :=
  { id := "1.12.2"
    assets_index_id := "1.12"
    main_class_name := "net.minecraft.client.main.Main"
    game := { arguments := [⟨"--username", "${auth_player_name}"⟩] }
    jvm := { required := [], arguments := [] }
    libraries := [⟨LibrariesJarType.Artifact, "a.jar", "a/a.jar", "/c/libraries/a/a.jar", "s1", 1, "u1"⟩]
    client_jar_path := "/c/versions/1.12.2/client.jar" }

/-- Sample builder state used by concrete witnesses. -/
def sample_bp : BuildParameters :=
  { version_metadata := sample_metadata, natives_dir_path := "/c/bin/0af1b2c3" }

/-- Witness for `c5_unrecognized_pair_skipped`: the key `"${foo}"` is
unrecognized and the pair `("--demo", "${foo}")` leaves the output
unchanged. -/
theorem c5_witness :
    game_arg_value sample_bp "${foo}" = none
    ∧ minecraft_arguments_of sample_bp ([] ++ ⟨"--demo", "${foo}"⟩ :: [⟨"--username", "${auth_player_name}"⟩])
        = minecraft_arguments_of sample_bp ([] ++ [⟨"--username", "${auth_player_name}"⟩]) :=
  ⟨rfl, c5_unrecognized_pair_skipped sample_bp ⟨"--demo", "${foo}"⟩ []
      [⟨"--username", "${auth_player_name}"⟩] rfl⟩

/-- The spec's `BuildContext`: the launch-configuration fields substituted
into game arguments. -/
structure BuildContext where
  auth_player_name : String
  version_name : String
  game_directory : String
  assets_root : String
  assets_index_name : String
  auth_uuid : String
  auth_access_token : String
  user_type : String
  version_type : String

/-- The active build context of the embedded code: the launch-configuration
values `minecraft_arguments` substitutes — player display name, target
version id, instance directory, assets directory, assets-index id, account
id, access token, user type and version type. -/
def active_build_context (bp : BuildParameters) : BuildContext :=
  { auth_player_name := "Yu_Cheng"
    version_name := minecraft_version bp
    game_directory := path_join get_instances_dir_path "mckismetlab-main-server"
    assets_root := path_join get_common_dir_path "assets"
    assets_index_name := bp.version_metadata.assets_index_id
    auth_uuid := "93ea0589-ec75-4cad-8619-995164382e8d"
    auth_access_token := "null_token"
    user_type := "mojang"
    version_type := "release" }

/-- C6: each recognized game-argument placeholder key expands the pair to
its flag name followed by the corresponding active build-context field,
with the literal `"\x7b\x7d"` for user properties. -/
theorem c6_recognized_pair_values (bp : BuildParameters) (n : String) :
    minecraft_arguments_of bp [⟨n, "${auth_player_name}"⟩]
      = [n, (active_build_context bp).auth_player_name]
    ∧ minecraft_arguments_of bp [⟨n, "${version_name}"⟩]
      = [n, (active_build_context bp).version_name]
    ∧ minecraft_arguments_of bp [⟨n, "${game_directory}"⟩]
      = [n, (active_build_context bp).game_directory]
    ∧ minecraft_arguments_of bp [⟨n, "${assets_root}"⟩]
      = [n, (active_build_context bp).assets_root]
    ∧ minecraft_arguments_of bp [⟨n, "${assets_index_name}"⟩]
      = [n, (active_build_context bp).assets_index_name]
    ∧ minecraft_arguments_of bp [⟨n, "${auth_uuid}"⟩]
      = [n, (active_build_context bp).auth_uuid]
    ∧ minecraft_arguments_of bp [⟨n, "${auth_access_token}"⟩]
      = [n, (active_build_context bp).auth_access_token]
    ∧ minecraft_arguments_of bp [⟨n, "${user_type}"⟩]
      = [n, (active_build_context bp).user_type]
    ∧ minecraft_arguments_of bp [⟨n, "${version_type}"⟩]
      = [n, (active_build_context bp).version_type]
    ∧ minecraft_arguments_of bp [⟨n, "${user_properties}"⟩]
      = [n, "\x7b\x7d"] :=
  ⟨rfl, rfl, rfl, rfl, rfl, rfl, rfl, rfl, rfl, rfl⟩

/-- Classifier entry under the `osx` spelling, for concrete MacOS tests. -/
def osx_entry : LibrariesFile :=
  ⟨"lwjgl/lwjgl-platform-osx.jar", "sha-osx", 10, "https://libs/osx"⟩

/-- Classifier entry under the `macos` spelling, for concrete MacOS tests. -/
def macos_entry : LibrariesFile :=
  ⟨"lwjgl/lwjgl-platform-macos.jar", "sha-macos", 11, "https://libs/macos"⟩

/-- Classifier map carrying entries under both MacOS key spellings. -/
def both_spellings : Classifiers := ⟨none, some osx_entry, some macos_entry, none⟩

/-- Descriptor with no unified artifact and the two-spelling classifier map. -/
def both_spellings_item : Libraries :=
  ⟨"org.lwjgl:lwjgl-platform", none, ⟨none, some both_spellings⟩⟩

/-- C4 counterexample: with entries under both spellings, the resolver emits
the `osx` entry, not the `macos` entry — the `osx` key is probed first, so
the claim that `macos` wins is false on this input. -/
theorem c4_counterexample :
    select_native_file OSType.MacOS both_spellings = some osx_entry
    ∧ (add_allow_libs OSType.MacOS both_spellings_item).map (fun j => j.sha1)
        = ["sha-osx"]
    ∧ (add_allow_libs OSType.MacOS both_spellings_item).map (fun j => j.sha1)
        ≠ ["sha-macos"] := by
  refine ⟨rfl, rfl, by decide⟩

/-- C4 amended: when the host OS is MacOS the resolver probes the `osx` key
spelling first and falls back to `macos` only when `osx` is absent; when a
classifier map contains entries under both spellings, the `osx` entry is the
one emitted. -/
theorem c4_macos_probe_order (c : Classifiers) (f g : LibrariesFile) :
    (c.natives_osx = some f → select_native_file OSType.MacOS c = some f)
    ∧ (c.natives_osx = none → c.natives_macos = some g →
        select_native_file OSType.MacOS c = some g)
    ∧ (c.natives_osx = none → c.natives_macos = none →
        select_native_file OSType.MacOS c = none)
    ∧ (∀ (nm : String) (rules : Option (List LibrariesRules)),
        c.natives_osx = some f →
        (add_allow_libs OSType.MacOS ⟨nm, rules, ⟨none, some c⟩⟩).map (fun j => j.sha1)
          = [f.sha1]) := by
  refine ⟨?_, ?_, ?_, ?_⟩ <;> intros <;> simp_all [select_native_file, add_allow_libs]

/-- Witness for `c4_macos_probe_order`: on the two-spelling map the `osx`
entry is selected. -/
theorem c4_witness :
    select_native_file OSType.MacOS both_spellings = some osx_entry :=
  (c4_macos_probe_order both_spellings osx_entry macos_entry).1 rfl

/-- C9: a descriptor whose classifier map contains no entry matching the
host OS contributes no native entry — resolution collapses to the
unified-artifact part and returns normally, with the empty result when no
unified artifact is present either. -/
theorem c9_missing_host_classifier (host_os : OSType) (item : Libraries)
    (c : Classifiers)
    (hc : item.downloads.classifiers = some c)
    (hnone : select_native_file host_os c = none) :
    add_allow_libs host_os item
      = add_allow_libs host_os
          { item with
            downloads := { artifact := item.downloads.artifact, classifiers := none } }
    ∧ (item.downloads.artifact = none → add_allow_libs host_os item = []) := by
  constructor
  · simp [add_allow_libs, hc, hnone]
  · intro ha
    simp [add_allow_libs, hc, hnone, ha]

/-- Classifier map holding only a `linux` entry. -/
def linux_only_classifiers : Classifiers :=
  ⟨none, none, none, some ⟨"lwjgl/lwjgl-linux.jar", "sha-linux", 9, "https://libs/linux"⟩⟩

/-- Descriptor with no unified artifact and the linux-only classifier map. -/
def linux_only_item : Libraries :=
  ⟨"org.lwjgl:lwjgl-platform", none, ⟨none, some linux_only_classifiers⟩⟩

/-- Witness for `c9_missing_host_classifier`: the linux-only descriptor
resolved on a Windows host yields zero artifacts. -/
theorem c9_witness :
    add_allow_libs OSType.Windows linux_only_item = [] :=
  (c9_missing_host_classifier OSType.Windows linux_only_item
      linux_only_classifiers rfl rfl).2 rfl

/-- Token test: starts with `-Dos.name=`. -/
def is_os_name_prop (s : String) : Bool :=
  starts_with_chars "-Dos.name=".data s.data

/-- Token test: starts with `-Dos.version=`. -/
def is_os_version_prop (s : String) : Bool :=
  starts_with_chars "-Dos.version=".data s.data

/-- C7: the legacy schema on a MacOS host emits no `os.name` and no
`os.version` system-property token (given a classpath string that is not
itself shaped like one), while on Windows and Linux hosts both properties
populated from host detection are emitted. -/
theorem c7_os_identification_props (host : Host) (bp : BuildParameters)
    (h1 : is_os_name_prop (assemble_library_path host.os bp) = false)
    (h2 : is_os_version_prop (assemble_library_path host.os bp) = false) :
    (host.os = OSType.MacOS →
      ∀ s ∈ get_jvm_arguments_for_112_and_later host bp,
        is_os_name_prop s = false ∧ is_os_version_prop s = false)
    ∧ (host.os = OSType.Windows →
        ("-Dos.name=Windows " ++ host.version)
            ∈ get_jvm_arguments_for_112_and_later host bp
        ∧ ("-Dos.version=" ++ host.version)
            ∈ get_jvm_arguments_for_112_and_later host bp)
    ∧ (host.os = OSType.Linux →
        "-Dos.name=Linux" ∈ get_jvm_arguments_for_112_and_later host bp
        ∧ ("-Dos.version=" ++ host.version)
            ∈ get_jvm_arguments_for_112_and_later host bp) := by
  refine ⟨?_, ?_, ?_⟩
  · intro hos s hs
    rw [hos] at h1 h2
    cases harch : host.arch == OSArch.X86
    · simp [get_jvm_arguments_for_112_and_later, add_os_info, hos, harch] at hs
      rcases hs with h | h | h | h | h | h <;> subst h <;>
        first
          | exact ⟨rfl, rfl⟩
          | exact ⟨h1, h2⟩
    · simp [get_jvm_arguments_for_112_and_later, add_os_info, hos, harch] at hs
      rcases hs with h | h | h | h | h | h | h <;> subst h <;>
        first
          | exact ⟨rfl, rfl⟩
          | exact ⟨h1, h2⟩
  · intro hos
    constructor <;>
      simp [get_jvm_arguments_for_112_and_later, add_os_info, hos]
  · intro hos
    constructor <;>
      simp [get_jvm_arguments_for_112_and_later, add_os_info, hos]

/-- Concrete Windows host for witnesses. -/
def host_win : Host := ⟨OSType.Windows, OSArch.X86_64, "10"⟩

/-- Witness for `c7_os_identification_props`: on a concrete Windows host and
sample builder both OS-identification tokens are emitted. -/
theorem c7_witness :
    ("-Dos.name=Windows " ++ host_win.version)
        ∈ get_jvm_arguments_for_112_and_later host_win sample_bp
    ∧ ("-Dos.version=" ++ host_win.version)
        ∈ get_jvm_arguments_for_112_and_later host_win sample_bp :=
  (c7_os_identification_props host_win sample_bp rfl rfl).2.1 rfl
